import Mathlib

/-!
Verification of the dataset profiling & cleaning engine
(`src/utils/dataUtils.ts`) and the rule-based question answering layer
(`src/pages/DataBot.tsx`).

Modelling conventions:
* JS scalar cell values are `Value`: numbers are exact rationals (the
  arithmetic exercised below — sums, halving, tripling, comparisons — is
  exact on IEEE doubles for the inputs involved); `Value.null` stands for
  both JS `null` and `undefined`, which every code path under study
  treats identically.
* A row (`Record<string, any>`) is an insertion-ordered association list
  `Row`; `JSON.stringify` is injective and order-preserving on this value
  model, so a row serves as its own canonical key and a `Set`/`Map` keyed
  by stringified rows is modelled by deduplication on rows themselves.
* A JS division whose result is not finite (`0/0 = NaN` here, since every
  numerator below is `0` whenever its denominator is) is modelled by
  `none : Option ℚ`; finite results are `some q`.
-/

inductive Value where
  | num (q : ℚ)
  | bool (b : Bool)
  | str (s : String)
  | null
deriving DecidableEq

abbrev Row := List (String × Value)

/-- JS property read `row[field]`: the value at the first matching key,
`null`/`undefined` (merged into `Value.null`) when the key is absent. -/
def getV (r : Row) (f : String) : Value :=
  match r.find? (fun p => p.1 = f) with
  | some p => p.2
  | none => Value.null

/-- JS object spread update `{...row, [k]: v}`: replaces the value at an
existing key in place, appends the key otherwise. -/
def setV (r : Row) (k : String) (v : Value) : Row :=
  if r.any (fun p => p.1 = k) then
    r.map (fun p => if p.1 = k then (k, v) else p)
  else r ++ [(k, v)]

/-- The null test used throughout the engine:
`v === null || v === undefined || v === ''`. -/
def isNullish (v : Value) : Bool :=
  decide (v = Value.null) || decide (v = Value.str "")

structure DatasetType where
  data : List Row
  fields : List String
  filename : String
deriving DecidableEq

inductive ColType where
  | string
  | number
  | boolean
  | date
  | mixed
deriving DecidableEq

/-- First-occurrence deduplication: the model of iterating a JS `Set`
(or of the key order of a `Map`), both of which preserve first-insertion
order. -/
def dedupFirstAux [DecidableEq α] (seen : List α) : List α → List α
  | [] => []
  | x :: xs =>
    if x ∈ seen then dedupFirstAux seen xs
    else x :: dedupFirstAux (x :: seen) xs

def dedupFirst [DecidableEq α] (l : List α) : List α := dedupFirstAux [] l

/-- Exactly `n` characters are available and all are decimal digits — the regex
atom `\d{n}` at the head of the list. -/
def takeIsDigits (cs : List Char) (n : Nat) : Bool :=
  decide ((cs.take n).length = n) && (cs.take n).all Char.isDigit

/-- Regex alternative `\d{4}-\d{2}-\d{2}` matched at the head. -/
def pat442 (cs : List Char) : Bool :=
  takeIsDigits cs 4 && decide ((cs.drop 4).take 1 = [ '-' ]) &&
  takeIsDigits (cs.drop 5) 2 && decide ((cs.drop 7).take 1 = [ '-' ]) &&
  takeIsDigits (cs.drop 8) 2

/-- Regex alternative `\d{2}\/\d{2}\/\d{4}` matched at the head. -/
def pat224slash (cs : List Char) : Bool :=
  takeIsDigits cs 2 && decide ((cs.drop 2).take 1 = [ '/' ]) &&
  takeIsDigits (cs.drop 3) 2 && decide ((cs.drop 5).take 1 = [ '/' ]) &&
  takeIsDigits (cs.drop 6) 4

/-- Regex alternative `\d{2}-\d{2}-\d{4}` matched at the head. -/
def pat224dash (cs : List Char) : Bool :=
  takeIsDigits cs 2 && decide ((cs.drop 2).take 1 = [ '-' ]) &&
  takeIsDigits (cs.drop 3) 2 && decide ((cs.drop 5).take 1 = [ '-' ]) &&
  takeIsDigits (cs.drop 6) 4

/-- An unanchored regex alternative matches at some position of the
string: `RegExp.prototype.test` scans every start position. -/
def anywhere (p : List Char → Bool) : List Char → Bool
  | [] => p []
  | c :: cs => p (c :: cs) || anywhere p cs

/-- The source test `/^\d{4}-\d{2}-\d{2}|\d{2}\/\d{2}\/\d{4}|\d{2}-\d{2}-\d{4}/.test(s)`.
The `^` anchor binds only to the first alternative of the alternation; the
other two alternatives match at any position. -/
def dateTest (s : String) : Bool :=
  pat442 s.toList || anywhere pat224slash s.toList || anywhere pat224dash s.toList

/-- Per-value classification inside `determineColumnType` (applied to
non-null values only; the catch-all branch of the source returns
string). -/
def classifyValue (v : Value) : ColType :=
  match v with
  | Value.num _ => ColType.number
  | Value.bool _ => ColType.boolean
  | Value.str s => if dateTest s then ColType.date else ColType.string
  | Value.null => ColType.string

/-- Function `determineColumnType` from `dataUtils.ts`. -/
def determineColumnType (values : List Value) : ColType :=
  let nonNullValues := values.filter (fun v => !(isNullish v))
  if nonNullValues.length = 0 then ColType.string
  else
    let types := nonNullValues.map classifyValue
    let uniqueTypes := dedupFirst types
    match uniqueTypes with
    | [t] => t
    | _ => ColType.mixed

/-- A JS division rendered as a percentage, `(a / b) * 100`; `none`
models the non-finite result produced when `b = 0` (here always `NaN`,
since every numerator below is `0` whenever its denominator is). -/
def jsPct (a b : ℚ) : Option ℚ :=
  if b = 0 then none else some (a / b * 100)

/-- Floor of a non-negative rational (the only use below). -/
def intFloorQ (q : ℚ) : ℤ := q.num / (q.den : ℤ)

/-- Rendering `Number.prototype.toFixed(2)` for the non-negative finite values that
reach it; round-half-up on the exact rational, which agrees with JS on
every input exercised below (no claim inspects these digit strings). -/
def toFixed2 (q : ℚ) : String :=
  let n := intFloorQ (q * 100 + 1 / 2)
  let ip := n / 100
  let fp := (n % 100).toNat
  let fs := if fp < 10 then "0" ++ toString fp else toString fp
  toString ip ++ "." ++ fs

/-- JS number-to-string; exact on integers (the only case a proved
statement inspects), approximate rendering otherwise. -/
def qStr (q : ℚ) : String :=
  if q.den = 1 then toString q.num else toString q

/-- Conversion `String(value)` on a cell value; in the engine it is only ever
applied to string and boolean cells (frequency-table keys). -/
def jsDisplay (v : Value) : String :=
  match v with
  | Value.num q => qStr q
  | Value.bool b => if b then "true" else "false"
  | Value.str s => s
  | Value.null => "null"

/-- Stable ascending insertion sort — the model of
`[...nums].sort((a, b) => a - b)`. -/
def insertSorted (x : ℚ) : List ℚ → List ℚ
  | [] => [x]
  | y :: ys => if x ≤ y then x :: y :: ys else y :: insertSorted x ys

def sortQ (l : List ℚ) : List ℚ := l.foldr insertSorted []

/-- Evaluation of `Math.min(...nums)` on a non-empty list (the empty case is guarded
out in the source). -/
def listMin : List ℚ → ℚ
  | [] => 0
  | x :: xs => xs.foldl min x

/-- Evaluation of `Math.max(...nums)` on a non-empty list. -/
def listMax : List ℚ → ℚ
  | [] => 0
  | x :: xs => xs.foldl max x

/-- The median computation of `generateDataProfile`: sort ascending,
average the two middle elements for an even count, take the middle
element for an odd count. -/
def medianOf (nums : List ℚ) : ℚ :=
  let sorted := sortQ nums
  let mid := sorted.length / 2
  if sorted.length % 2 = 0 then
    (sorted.getD (mid - 1) 0 + sorted.getD mid 0) / 2
  else sorted.getD mid 0

/-- The values of one column that are actual numbers
(`typeof v === 'number'`). -/
def numericOf (values : List Value) : List ℚ :=
  values.filterMap (fun v => match v with | Value.num q => some q | _ => none)

/-- Count of null/undefined/empty-string cells of a field across the
dataset. -/
def countNulls (data : List Row) (f : String) : Nat :=
  ((data.map (fun r => getV r f)).filter isNullish).length

/-- One step of the frequency-table build: increment the count at an
existing key (in place) or append the key with count 1. -/
def bumpCat (cats : List (String × Nat)) (k : String) : List (String × Nat) :=
  if cats.any (fun p => p.1 = k) then
    cats.map (fun p => if p.1 = k then (p.1, p.2 + 1) else p)
  else cats ++ [(k, 1)]

/-- The frequency table over non-null values keyed by string
representation. (JS object iteration would reorder integer-like keys
first; no key produced by a string/boolean column in the claims below is
integer-like, so insertion order is faithful here.) -/
def categoriesOf (values : List Value) : List (String × Nat) :=
  values.foldl (fun cats v => if isNullish v then cats else bumpCat cats (jsDisplay v)) []

/-- The mode scan of `generateDataProfile`: running maximum with
strictly-greater updates, so the first key reaching the maximal count
wins; `none` models the `undefined` left by an empty table. -/
def modeOf (cats : List (String × Nat)) : Option String :=
  (cats.foldl (fun acc p => if p.2 > acc.1 then (p.2, some p.1) else acc)
    ((0 : Nat), (none : Option String))).2

structure DataColumn where
  name : String
  type : ColType
  uniqueValues : List Value
  uniqueCount : Nat
  nullCount : Nat
  nullPercentage : Option ℚ
  min : Option ℚ
  max : Option ℚ
  mean : Option ℚ
  median : Option ℚ
  categories : List (String × Nat)
  mode : Option String
deriving DecidableEq

structure DataProfile where
  rowCount : Nat
  columnCount : Nat
  columns : List DataColumn
  nullValues : Nat
  nullPercentage : Option ℚ
  duplicateRows : Nat
  duplicatePercentage : Option ℚ
deriving DecidableEq

/-- The per-field column profile built inside `generateDataProfile`.
`none` in the numeric/mode fields models the `undefined` of the unset
optional TS fields; `categories` is `[]` for non-categorical columns. -/
def profileColumn (data : List Row) (rowCount : Nat) (f : String) : DataColumn :=
  let values := data.map (fun r => getV r f)
  let fieldNulls := countNulls data f
  let type := determineColumnType values
  let uniqueValues := dedupFirst values
  let nums := numericOf values
  let isNum := type = ColType.number ∧ nums.length > 0
  let isCat := type = ColType.string ∨ type = ColType.boolean
  { name := f
    type := type
    uniqueValues := uniqueValues
    uniqueCount := uniqueValues.length
    nullCount := fieldNulls
    nullPercentage := jsPct (fieldNulls : ℚ) (rowCount : ℚ)
    min := if isNum then some (listMin nums) else none
    max := if isNum then some (listMax nums) else none
    mean := if isNum then some (nums.sum / (nums.length : ℚ)) else none
    median := if isNum then some (medianOf nums) else none
    categories := if isCat then categoriesOf values else []
    mode := if isCat then modeOf (categoriesOf values) else none }

/-- The `fields.map` loop of `generateDataProfile` together with the
`nullCount += fieldNulls` accumulation it performs on the way: returns
the column list and the accumulated total. -/
def profileFold (data : List Row) (rowCount : Nat) (fields : List String) :
    List DataColumn × Nat :=
  fields.foldl
    (fun acc f => (acc.1 ++ [profileColumn data rowCount f], acc.2 + countNulls data f))
    ([], 0)

/-- Function `generateDataProfile` from `dataUtils.ts`. Duplicate detection: the
`Set` of `JSON.stringify`-ed rows has the same size as the
first-occurrence deduplication of the rows themselves (stringification is
injective and order-preserving on this row model). -/
def generateDataProfile (ds : DatasetType) : DataProfile :=
  let rowCount := ds.data.length
  let columnCount := ds.fields.length
  let totalCells := rowCount * columnCount
  let built := profileFold ds.data rowCount ds.fields
  let columns := built.1
  let nullCount := built.2
  let duplicateRows := rowCount - (dedupFirst ds.data).length
  { rowCount := rowCount
    columnCount := columnCount
    columns := columns
    nullValues := nullCount
    nullPercentage := jsPct (nullCount : ℚ) (totalCells : ℚ)
    duplicateRows := duplicateRows
    duplicatePercentage := jsPct (duplicateRows : ℚ) (rowCount : ℚ) }

inductive Issue where
  | missing
  | outlier
  | inconsistent
  | duplicate
deriving DecidableEq

structure CleaningSuggestion where
  column : String
  issue : Issue
  description : String
  recommendation : String
  autoFix : Bool
deriving DecidableEq

/-- JS truthiness of an optional percentage
(`column.nullPercentage && ...`): `undefined`, `NaN` (`none`) and `0` are
falsy. -/
def truthyPct (p : Option ℚ) : Bool :=
  match p with
  | none => false
  | some q => !(decide (q = 0))

/-- JS truthiness of the optional mode string (`column.mode`):
`undefined` and the empty string are falsy. -/
def truthyMode (m : Option String) : Bool :=
  match m with
  | none => false
  | some s => !(decide (s = ""))

/-- JS comparison `p > 0` on an optional percentage; `NaN > 0` is
false. -/
def pctPos (p : Option ℚ) : Bool :=
  match p with
  | none => false
  | some q => decide (q > 0)

/-- The recommendation text of a missing-value suggestion. Note the
source tests `column.type === 'string' && column.mode`: a boolean column
never takes the mode branch. -/
def missingRecommendation (c : DataColumn) : String :=
  if c.type = ColType.number then "Fill with mean or median value"
  else if c.type = ColType.string ∧ truthyMode c.mode then
    match c.mode with
    | some m => "Fill with most common value: \"" ++ m ++ "\""
    | none => "Remove rows or fill with placeholder"
  else "Remove rows or fill with placeholder"

def missingDescription (c : DataColumn) : String :=
  let p := match c.nullPercentage with
    | some q => toFixed2 q
    | none => "NaN"
  let n := c.nullCount
  s!"{n} missing values ({p}%)"

/-- Function `generateCleaningSuggestions` from `dataUtils.ts`: missing-value
suggestions in column order, then the dataset-wide duplicate suggestion,
then outlier suggestions over numeric columns in column order. -/
def generateCleaningSuggestions (profile : DataProfile) : List CleaningSuggestion :=
  let missing := profile.columns.filterMap (fun c =>
    if truthyPct c.nullPercentage && pctPos c.nullPercentage then
      some { column := c.name
             issue := Issue.missing
             description := missingDescription c
             recommendation := missingRecommendation c
             autoFix := true }
    else none)
  let dups :=
    if pctPos profile.duplicatePercentage then
      let d := profile.duplicateRows
      let p := match profile.duplicatePercentage with
        | some q => toFixed2 q
        | none => "NaN"
      [{ column := "Multiple"
         issue := Issue.duplicate
         description := s!"{d} duplicate rows ({p}%)"
         recommendation := "Remove duplicate rows"
         autoFix := true }]
    else []
  let outliers := (profile.columns.filter (fun c => c.type = ColType.number)).filterMap
    (fun c =>
      match c.min, c.max, c.mean with
      | some mn, some mx, some me =>
        if mx - mn > 0 ∧ mx > me * 3 then
          let mxs := qStr mx
          let mes := toFixed2 me
          some { column := c.name
                 issue := Issue.outlier
                 description := s!"Potential outliers detected (max value {mxs} is far from mean {mes})"
                 recommendation := "Consider capping extreme values or removing outliers"
                 autoFix := true }
        else none
      | _, _, _ => none)
  missing ++ dups ++ outliers

/-- Remove duplicate rows: the `Map` keyed by `JSON.stringify(row)` keeps
keys in first-insertion order, and since the key determines the row value
on this model, the result is first-occurrence deduplication. -/
def removeDuplicates (data : List Row) : List Row := dedupFirst data

/-- The missing-value fill applied to one row of the named column. -/
def fillRow (c : DataColumn) (col : String) (r : Row) : Row :=
  if isNullish (getV r col) then
    if c.type = ColType.number ∧ c.median ≠ none then
      setV r col (Value.num (c.median.getD 0))
    else if c.mode ≠ none then
      setV r col (Value.str (c.mode.getD ""))
    else
      setV r col (if c.type = ColType.number then Value.num 0 else Value.str "Unknown")
  else r

/-- The outlier cap applied to one row: only an actual number strictly
above the cap is replaced. -/
def capRow (col : String) (cap : ℚ) (r : Row) : Row :=
  match getV r col with
  | Value.num v => if v > cap then setV r col (Value.num cap) else r
  | _ => r

/-- One `forEach` iteration of `cleanDataset` over the current
intermediate data: at most one of the three issue branches fires per
suggestion. -/
def applySuggestion (profile : DataProfile) (data : List Row)
    (s : CleaningSuggestion) : List Row :=
  let d1 :=
    if s.issue = Issue.duplicate ∧ s.autoFix then removeDuplicates data else data
  let d2 :=
    if s.issue = Issue.missing ∧ s.autoFix then
      match profile.columns.find? (fun c => c.name = s.column) with
      | none => d1
      | some c => d1.map (fillRow c s.column)
    else d1
  let d3 :=
    if s.issue = Issue.outlier ∧ s.autoFix then
      match profile.columns.find? (fun c => c.name = s.column) with
      | none => d2
      | some c =>
        if c.type ≠ ColType.number ∨ c.median = none then d2
        else d2.map (capRow s.column (c.median.getD 0 * 3))
    else d2
  d3

/-- Function `cleanDataset` from `dataUtils.ts`. -/
def cleanDataset (dataset : DatasetType) (profile : DataProfile)
    (selectedSuggestions : List CleaningSuggestion) : DatasetType :=
  { dataset with
    data := selectedSuggestions.foldl (applySuggestion profile) dataset.data }

/-- ASCII lower-casing — `toLowerCase()` on the ASCII questions and field
names the engine is exercised with. -/
def lowerStr (s : String) : String := String.mk (s.toList.map Char.toLower)

/-- The needle is a prefix of the hay. -/
def startsWithL : List Char → List Char → Bool
  | [], _ => true
  | _ :: _, [] => false
  | n :: ns, h :: hs => (n == h) && startsWithL ns hs

/-- Test `String.prototype.includes`: the needle occurs at some position. -/
def containsSub (needle : List Char) : List Char → Bool
  | [] => startsWithL needle []
  | h :: t => startsWithL needle (h :: t) || containsSub needle t

def includes (hay needle : String) : Bool :=
  containsSub needle.toList hay.toList

/-- JS `Number(string)` restricted to plain decimal literals with an
optional sign and fraction; `none` models `NaN`. (Exponent, hex and
`Infinity` forms never arise from the inputs below.) -/
def jsStrToNumber (s : String) : Option ℚ :=
  let t := s.trim
  if t = "" then some 0
  else
    let core := fun (cs : List Char) =>
      let ip := cs.takeWhile Char.isDigit
      let rest := cs.dropWhile Char.isDigit
      match rest with
      | [] =>
        if ip.isEmpty then (none : Option ℚ)
        else some ((ip.foldl (fun a c => 10 * a + (c.toNat - 48)) 0 : Nat) : ℚ)
      | '.' :: frac =>
        if frac.all Char.isDigit ∧ ¬(ip.isEmpty ∧ frac.isEmpty) then
          some (((ip.foldl (fun a c => 10 * a + (c.toNat - 48)) 0 : Nat) : ℚ) +
            ((frac.foldl (fun a c => 10 * a + (c.toNat - 48)) 0 : Nat) : ℚ) /
              ((10 : ℚ) ^ frac.length))
        else none
      | _ => none
    match t.toList with
    | '-' :: cs => (core cs).map (fun q => -q)
    | '+' :: cs => core cs
    | cs => core cs

/-- JS numeric coercion `Number(value)` of a cell value; `none` models
`NaN`. -/
def toNumber (v : Value) : Option ℚ :=
  match v with
  | Value.num q => some q
  | Value.bool b => some (if b then 1 else 0)
  | Value.str s => jsStrToNumber s
  | Value.null => some 0

/-- Evaluation of `Math.max(...values)` / `Math.min(...values)` with JS coercion of the
spread arguments; any `NaN` poisons the result. Only called on non-empty
lists (the empty case is guarded in the source). -/
def jsFoldNum (f : ℚ → ℚ → ℚ) : List Value → Option ℚ
  | [] => none
  | v :: vs =>
    vs.foldl (fun acc w =>
      match acc, toNumber w with
      | some a, some b => some (f a b)
      | _, _ => none) (toNumber v)

def optNumStr (p : Option ℚ) : String :=
  match p with
  | none => "NaN"
  | some q => qStr q

/-- The filtered column values used by the max/min branches:
`data.map(row => row[col]).filter(v => v !== null && v !== undefined)`
(empty strings are kept here, unlike the profiler). -/
def colValues (ds : DatasetType) (col : String) : List Value :=
  (ds.data.map (fun r => getV r col)).filter (fun v => !(decide (v = Value.null)))

/-- Guard `values.length > 0 && typeof values[0] === 'number'`. -/
def firstIsNumber : List Value → Bool
  | Value.num _ :: _ => true
  | _ => false

def maxKw (ql : String) : Bool :=
  includes ql "maximum" || includes ql "max" || includes ql "highest"

def minKw (ql : String) : Bool :=
  includes ql "minimum" || includes ql "min" || includes ql "lowest"

def avgKw (ql : String) : Bool :=
  includes ql "average" || includes ql "mean"

def uniqKw (ql : String) : Bool :=
  includes ql "unique" || includes ql "distinct"

def missKw (ql : String) : Bool :=
  includes ql "missing" || includes ql "null" || includes ql "empty"

/-- Result of `typeof value` rendered as in JS; `Value.null` prints as `object`
(the JS `typeof null`); an absent field would print `undefined`, a
distinction this model merges and no proved statement inspects. -/
def typeofStr (v : Value) : String :=
  match v with
  | Value.num _ => "number"
  | Value.bool _ => "boolean"
  | Value.str _ => "string"
  | Value.null => "object"

/-- The generic column summary at the end of the mentioned-column
branch. -/
def genericColInfo (ds : DatasetType) (col : String) : String :=
  let u := (dedupFirst (ds.data.map (fun r => getV r col))).length
  let m := countNulls ds.data col
  let p := match jsPct (m : ℚ) (ds.data.length : ℚ) with
    | some q => toFixed2 q
    | none => "NaN"
  let t := typeofStr (getV (ds.data.getD 0 []) col)
  s!"Information about \"{col}\": \n- {u} unique values\n- {m} missing values ({p}%)\n- Type: {t}"

/-- The missing-count sub-intent answer. -/
def missAnswer (ds : DatasetType) (col : String) : String :=
  let m := countNulls ds.data col
  let p := match jsPct (m : ℚ) (ds.data.length : ℚ) with
    | some q => toFixed2 q
    | none => "NaN"
  s!"There are {m} missing values ({p}%) in the \"{col}\" column."

/-- The unique-count sub-intent answer. -/
def uniqAnswer (ds : DatasetType) (col : String) : String :=
  let n := (dedupFirst (ds.data.map (fun r => getV r col))).length
  s!"There are {n} unique values in the \"{col}\" column."

/-- Sub-intent chain after the average check. -/
def afterAvg (ql : String) (ds : DatasetType) (col : String) : String :=
  if uniqKw ql then uniqAnswer ds col
  else if missKw ql then missAnswer ds col
  else genericColInfo ds col

/-- Sub-intent chain after the minimum check: the average branch answers
only when the column has at least one actual number. -/
def afterMin (ql : String) (ds : DatasetType) (col : String) : String :=
  let nums := numericOf (ds.data.map (fun r => getV r col))
  if avgKw ql ∧ nums.length > 0 then
    let a := toFixed2 (nums.sum / (nums.length : ℚ))
    s!"The average value in the \"{col}\" column is {a}."
  else afterAvg ql ds col

/-- Sub-intent chain after the maximum check: the minimum branch answers
only when the first filtered value is a number, otherwise control falls
through. -/
def afterMax (ql : String) (ds : DatasetType) (col : String) : String :=
  let values := colValues ds col
  if minKw ql ∧ firstIsNumber values = true then
    let m := optNumStr (jsFoldNum min values)
    s!"The minimum value in the \"{col}\" column is {m}."
  else afterMin ql ds col

/-- The mentioned-column branch of `generateAnswer`: the maximum branch
answers only when the first filtered value is a number, otherwise control
falls through. -/
def answerColumn (ql : String) (ds : DatasetType) (col : String) : String :=
  let values := colValues ds col
  if maxKw ql ∧ firstIsNumber values = true then
    let m := optNumStr (jsFoldNum max values)
    s!"The maximum value in the \"{col}\" column is {m}."
  else afterMax ql ds col

/-- Function `generateAnswer` from `DataBot.tsx`. -/
def generateAnswer (question : String) (ds : DatasetType) : String :=
  let ql := lowerStr question
  if includes ql "how many rows" || includes ql "how many records" then
    let n := ds.data.length
    s!"There are {n} rows in this dataset."
  else if includes ql "how many columns" || includes ql "how many fields" then
    let n := ds.fields.length
    let names := String.intercalate ", " ds.fields
    s!"There are {n} columns in this dataset: {names}."
  else if includes ql "what columns" || includes ql "what fields" then
    let names := String.intercalate ", " ds.fields
    s!"The columns in this dataset are: {names}."
  else
    match ds.fields.find? (fun f => includes ql (lowerStr f)) with
    | some col => answerColumn ql ds col
    | none => "I'm not sure how to answer that question about your data. Try asking about specific columns, row counts, or statistics like maximum, minimum, or average values."

/-- The date matcher as the claim words it: each of the three patterns
anchored at the start of the string. Stated from the spec for comparison
with `dateTest`, the matcher of the source. -/
def specDateAnchored (s : String) : Bool :=
  pat442 s.toList || pat224slash s.toList || pat224dash s.toList

/-- The date matcher the source actually implements, stated
positionally: `YYYY-MM-DD` at the start of the string, or `MM/DD/YYYY` or
`MM-DD-YYYY` at any position. -/
def specDateAmended (s : String) : Bool :=
  pat442 s.toList ||
  (List.range (s.toList.length + 1)).any (fun i => pat224slash (s.toList.drop i)) ||
  (List.range (s.toList.length + 1)).any (fun i => pat224dash (s.toList.drop i))

/-- Scenario A of the spec: fields `[age, city]`, rows
`[{age:25,city:NY},{age:null,city:NY},{age:25,city:NY}]`. -/
def scenarioA : DatasetType :=
  { data := [
      [("age", Value.num 25), ("city", Value.str "NY")],
      [("age", Value.null), ("city", Value.str "NY")],
      [("age", Value.num 25), ("city", Value.str "NY")]]
    fields := ["age", "city"]
    filename := "a.csv" }

/-- A boolean column with a defined mode and a missing value. -/
def boolFlagDs : DatasetType :=
  { data := [[("flag", Value.bool true)], [("flag", Value.bool true)], [("flag", Value.null)]]
    fields := ["flag"]
    filename := "flags.csv" }

/-- A string column with a defined mode and a missing value. -/
def cityDs : DatasetType :=
  { data := [[("city", Value.str "NY")], [("city", Value.null)]]
    fields := ["city"]
    filename := "city.csv" }

/-- Scenario D of the spec: a numeric column with values
`[10, 10, 10, 1000]`. -/
def outlierDs : DatasetType :=
  { data := [[("x", Value.num 10)], [("x", Value.num 10)], [("x", Value.num 10)],
      [("x", Value.num 1000)]]
    fields := ["x"]
    filename := "x.csv" }

/-- An outlier suggestion on the column of `outlierDs`. -/
def outlierSug : CleaningSuggestion :=
  { column := "x", issue := Issue.outlier, description := "outliers",
    recommendation := "cap", autoFix := true }

/-- The dataset-wide duplicate-removal suggestion. -/
def dupSug : CleaningSuggestion :=
  { column := "Multiple", issue := Issue.duplicate, description := "dups",
    recommendation := "Remove duplicate rows", autoFix := true }

/-- A dataset with a column but zero rows. -/
def emptyDs : DatasetType :=
  { data := [], fields := ["a"], filename := "empty.csv" }

/-- The missing-value suggestion `generateCleaningSuggestions` emits for
the column of `cityDs`. -/
def citySug : CleaningSuggestion :=
  { column := "city", issue := Issue.missing,
    description := "1 missing values (50.00%)",
    recommendation := "Fill with most common value: \"NY\"", autoFix := true }

/-- A column whose first value is a non-numeric string but which holds a
number further down. -/
def scoreDs : DatasetType :=
  { data := [[("score", Value.str "NA")], [("score", Value.num 10)]]
    fields := ["score"]
    filename := "scores.csv" }

lemma dedupFirstAux_length_le [DecidableEq α] (seen : List α) (l : List α) :
    (dedupFirstAux seen l).length ≤ l.length := by
  induction l generalizing seen with
  | nil => simp [dedupFirstAux]
  | cons x xs ih =>
    simp only [dedupFirstAux]
    split
    · exact (ih seen).trans (Nat.le_succ _)
    · simpa using ih (x :: seen)

lemma dedupFirstAux_sublist [DecidableEq α] (seen : List α) (l : List α) :
    (dedupFirstAux seen l).Sublist l := by
  induction l generalizing seen with
  | nil => simp [dedupFirstAux]
  | cons x xs ih =>
    simp only [dedupFirstAux]
    split
    · exact (ih seen).cons x
    · exact (ih (x :: seen)).cons₂ x

lemma not_mem_seen_of_mem_dedupFirstAux [DecidableEq α] (seen : List α) (l : List α)
    (x : α) : x ∈ dedupFirstAux seen l → x ∉ seen := by
  induction l generalizing seen with
  | nil => simp [dedupFirstAux]
  | cons y ys ih =>
    simp only [dedupFirstAux]
    split
    · exact ih seen
    · intro hx
      rcases List.mem_cons.mp hx with rfl | h
      · assumption
      · intro hs
        exact ih (y :: seen) h (List.mem_cons_of_mem _ hs)

lemma nodup_dedupFirstAux [DecidableEq α] (seen : List α) (l : List α) :
    (dedupFirstAux seen l).Nodup := by
  induction l generalizing seen with
  | nil => simp [dedupFirstAux]
  | cons y ys ih =>
    simp only [dedupFirstAux]
    split
    · exact ih seen
    · refine List.nodup_cons.mpr ⟨?_, ih (y :: seen)⟩
      intro hy
      exact not_mem_seen_of_mem_dedupFirstAux _ _ _ hy (List.mem_cons_self _ _)

lemma mem_dedupFirstAux_of_mem [DecidableEq α] (seen : List α) (l : List α) (x : α)
    (hx : x ∈ l) (hs : x ∉ seen) : x ∈ dedupFirstAux seen l := by
  induction l generalizing seen with
  | nil => simp at hx
  | cons y ys ih =>
    simp only [dedupFirstAux]
    by_cases h : y ∈ seen
    · rw [if_pos h]
      rcases List.mem_cons.mp hx with rfl | hmem
      · exact absurd h hs
      · exact ih seen hmem hs
    · rw [if_neg h]
      rcases List.mem_cons.mp hx with rfl | hmem
      · exact List.mem_cons_self _ _
      · by_cases hxy : x = y
        · subst hxy; exact List.mem_cons_self _ _
        · exact List.mem_cons_of_mem _ (ih (y :: seen) hmem (by simp [hxy, hs]))

lemma dedupFirstAux_eq_self [DecidableEq α] (seen : List α) (l : List α)
    (hn : l.Nodup) (hd : ∀ x ∈ l, x ∉ seen) : dedupFirstAux seen l = l := by
  induction l generalizing seen with
  | nil => simp [dedupFirstAux]
  | cons y ys ih =>
    have hy : y ∉ seen := hd y (List.mem_cons_self _ _)
    simp only [dedupFirstAux, if_neg hy]
    congr 1
    refine ih (y :: seen) (List.nodup_cons.mp hn).2 ?_
    intro x hx
    simp only [List.mem_cons, not_or]
    constructor
    · intro hxy
      subst hxy
      exact (List.nodup_cons.mp hn).1 hx
    · exact hd x (List.mem_cons_of_mem _ hx)

lemma dedupFirst_idem [DecidableEq α] (l : List α) :
    dedupFirst (dedupFirst l) = dedupFirst l :=
  dedupFirstAux_eq_self [] _ (nodup_dedupFirstAux [] l) (by intro x _; simp)

lemma getV_map_set_of_any (k : String) (v : Value) :
    ∀ r : Row, r.any (fun p => p.1 = k) = true →
      getV (r.map (fun p => if p.1 = k then (k, v) else p)) k = v := by
  intro r
  induction r with
  | nil => simp
  | cons p ps ih =>
    intro h
    by_cases hp : p.1 = k
    · simp [getV, List.find?, hp]
    · have h' : ps.any (fun q => q.1 = k) = true := by
        simpa [List.any_cons, hp] using h
      simpa [getV, List.find?, hp] using ih h'

lemma getV_append_single (k : String) (v : Value) :
    ∀ r : Row, r.any (fun p => p.1 = k) = false →
      getV (r ++ [(k, v)]) k = v := by
  intro r
  induction r with
  | nil => simp [getV, List.find?]
  | cons p ps ih =>
    intro h
    have hp : ¬ p.1 = k := by
      intro hk
      simp [List.any_cons, hk] at h
    have h' : ps.any (fun q => q.1 = k) = false := by
      simpa [List.any_cons, hp] using h
    simpa [getV, List.find?, hp] using ih h'

/-- Reading back the written key after a spread update yields the written
value. -/
lemma getV_setV_self (r : Row) (k : String) (v : Value) :
    getV (setV r k v) k = v := by
  unfold setV
  cases h : r.any (fun p => p.1 = k) with
  | true =>
    simp only [h, if_true]
    exact getV_map_set_of_any k v r h
  | false =>
    simp only [h, Bool.false_eq_true, if_false]
    exact getV_append_single k v r h

lemma getV_map_set_ne (k f : String) (v : Value) (hfk : ¬ f = k) :
    ∀ r : Row, getV (r.map (fun p => if p.1 = k then (k, v) else p)) f = getV r f := by
  intro r
  induction r with
  | nil => simp
  | cons p ps ih =>
    by_cases hp : p.1 = k
    · have hkf : ¬ k = f := fun hs => hfk hs.symm
      have hpf : ¬ p.1 = f := by rw [hp]; exact hkf
      simpa [getV, List.find?, hp, hpf, hkf] using ih
    · by_cases hpf : p.1 = f
      · simp [getV, List.find?, hp, hpf, hfk]
      · simpa [getV, List.find?, hp, hpf] using ih

lemma getV_append_single_ne (k f : String) (v : Value) (hfk : ¬ f = k) :
    ∀ r : Row, getV (r ++ [(k, v)]) f = getV r f := by
  intro r
  induction r with
  | nil =>
    have hkf : ¬ k = f := fun hs => hfk hs.symm
    simp [getV, List.find?, hkf]
  | cons p ps ih =>
    by_cases hpf : p.1 = f
    · simp [getV, List.find?, hpf]
    · simpa [getV, List.find?, hpf] using ih

/-- A spread update leaves every other key unchanged. -/
lemma getV_setV_ne (r : Row) (k f : String) (v : Value) (hfk : ¬ f = k) :
    getV (setV r k v) f = getV r f := by
  unfold setV
  split
  · exact getV_map_set_ne k f v hfk r
  · exact getV_append_single_ne k f v hfk r

/-- Reading `getD` with the empty-row default commutes with a map that fixes the
empty row. -/
lemma getD_map_of_fix (g : Row → Row) (hg : g [] = []) :
    ∀ (l : List Row) (i : Nat), (l.map g).getD i [] = g (l.getD i []) := by
  intro l
  induction l with
  | nil => intro i; simp [hg]
  | cons r rs ih =>
    intro i
    cases i with
    | zero => simp
    | succ j => simpa using ih j

/-- The accumulated null total of the profiling loop is the sum of the
per-column null counts it produced. -/
lemma profileFold_snd_eq_sum (data : List Row) (rowCount : Nat) :
    ∀ (fields : List String) (cs : List DataColumn) (n : Nat),
      n = (cs.map (fun c => c.nullCount)).sum →
      (fields.foldl
        (fun acc f => (acc.1 ++ [profileColumn data rowCount f], acc.2 + countNulls data f))
        (cs, n)).2 =
      (((fields.foldl
        (fun acc f => (acc.1 ++ [profileColumn data rowCount f], acc.2 + countNulls data f))
        (cs, n)).1).map (fun c => c.nullCount)).sum := by
  intro fields
  induction fields with
  | nil => intro cs n hn; simpa using hn
  | cons f fs ih =>
    intro cs n hn
    simp only [List.foldl_cons]
    refine ih (cs ++ [profileColumn data rowCount f]) (n + countNulls data f) ?_
    simp [hn, profileColumn]

/-- The left-to-right scan of an unanchored regex alternative tests
exactly the suffixes at positions `0 .. length`. -/
lemma anywhere_eq_any_drop (p : List Char → Bool) :
    ∀ cs : List Char,
      anywhere p cs = (List.range (cs.length + 1)).any (fun i => p (cs.drop i)) := by
  intro cs
  induction cs with
  | nil => simp [anywhere, List.range_succ]
  | cons c cs ih =>
    have hfun : ((fun i => p (List.drop i (c :: cs))) ∘ Nat.succ) =
        (fun i => p (List.drop i cs)) := by
      funext i
      simp [Function.comp]
    simp only [anywhere, List.length_cons]
    rw [List.range_succ_eq_map, List.any_cons, List.any_map, hfun, ih]
    simp

/-- C1: for every Dataset, the Profile's `nullValues` equals the sum over
its columns of that column's `nullCount`. -/
theorem nullValues_eq_sum_colNullCounts (ds : DatasetType) :
    (generateDataProfile ds).nullValues =
      ((generateDataProfile ds).columns.map (fun c => c.nullCount)).sum := by
  simp only [generateDataProfile, profileFold]
  exact profileFold_snd_eq_sum ds.data ds.data.length ds.fields [] 0 (by simp)

/-- C2: on a dataset with a column but zero rows, `generateDataProfile`
is total but reports every percentage as the JS value `NaN` (modelled by
`none`), not the defined value `0` the claim requires. -/
theorem emptyDs_percentages_are_nan :
    (generateDataProfile emptyDs).nullPercentage = none ∧
    (generateDataProfile emptyDs).duplicatePercentage = none ∧
    (generateDataProfile emptyDs).columns.map (fun c => c.nullPercentage) = [none] := by
  decide

/-- C9: `cleanDataset` returns a dataset with the input's fields and
filename (the embedding is pure, so the input dataset and profile values
are never mutated). -/
theorem cleanDataset_preserves_fields_filename (ds : DatasetType)
    (profile : DataProfile) (sugs : List CleaningSuggestion) :
    (cleanDataset ds profile sugs).fields = ds.fields ∧
    (cleanDataset ds profile sugs).filename = ds.filename :=
  ⟨rfl, rfl⟩

/-- C5: for every Dataset, `duplicateRows` is the row count minus the
number of distinct canonical row keys (which never exceeds the row
count), and the duplicate percentage lies in `[0, 100]` for a non-empty
dataset; but on a zero-row dataset the unguarded division makes the
percentage the JS value `NaN` (modelled `none`), violating the bound the
claim states for every Dataset. -/
theorem duplicateRows_formula_and_bounds (ds : DatasetType) :
    ((generateDataProfile ds).duplicateRows
        = ds.data.length - (dedupFirst ds.data).length
      ∧ (dedupFirst ds.data).length ≤ ds.data.length)
    ∧ (0 < ds.data.length →
        ∃ q, (generateDataProfile ds).duplicatePercentage = some q ∧ 0 ≤ q ∧ q ≤ 100)
    ∧ (ds.data.length = 0 → (generateDataProfile ds).duplicatePercentage = none) := by
  refine ⟨⟨rfl, dedupFirstAux_length_le [] ds.data⟩, ?_, ?_⟩
  · intro hpos
    have hne : (ds.data.length : ℚ) ≠ 0 := Nat.cast_ne_zero.mpr (Nat.pos_iff_ne_zero.mp hpos)
    have hlenpos : (0 : ℚ) < (ds.data.length : ℚ) := by exact_mod_cast hpos
    have hcast : ((ds.data.length - (dedupFirst ds.data).length : ℕ) : ℚ)
        ≤ (ds.data.length : ℚ) := by
      exact_mod_cast Nat.sub_le _ _
    refine ⟨((ds.data.length - (dedupFirst ds.data).length : ℕ) : ℚ)
        / (ds.data.length : ℚ) * 100, ?_, ?_, ?_⟩
    · simp [generateDataProfile, jsPct, hne]
    · positivity
    · have h1 : ((ds.data.length - (dedupFirst ds.data).length : ℕ) : ℚ)
          / (ds.data.length : ℚ) ≤ 1 := (div_le_one hlenpos).mpr hcast
      nlinarith [h1]
  · intro h0
    simp [generateDataProfile, jsPct, h0]

/-- Witness: on the Scenario A dataset (three rows, one duplicate) the
duplicate percentage is defined and within bounds. -/
theorem duplicateRows_formula_and_bounds_witness :
    (∃ q, (generateDataProfile scenarioA).duplicatePercentage = some q ∧ 0 ≤ q ∧ q ≤ 100) ∧
    (generateDataProfile emptyDs).duplicatePercentage = none :=
  ⟨(duplicateRows_formula_and_bounds scenarioA).2.1 (by decide),
   (duplicateRows_formula_and_bounds emptyDs).2.2 (by decide)⟩

/-- C3 counterexample: the string does not match any of the three date
patterns anchored at the start (so the claim classifies it as string),
yet `determineColumnType` classifies it as date, because the `^` anchor
of the source regex binds only to the first alternative. -/
theorem dateType_unanchored_counterexample :
    determineColumnType [Value.str "a01/02/2003"] = ColType.date ∧
    specDateAnchored "a01/02/2003" = false := by
  decide

/-- C3 amended: a non-empty string value is classified as date iff it
matches `YYYY-MM-DD` anchored at the start of the string, or matches
`MM/DD/YYYY` or `MM-DD-YYYY` at any position; any other string is
classified as string. -/
theorem singleton_string_classification (s : String) (hs : ¬ s = "") :
    determineColumnType [Value.str s] =
      (if specDateAmended s = true then ColType.date else ColType.string) := by
  have hmatch : dateTest s = specDateAmended s := by
    simp [dateTest, specDateAmended, anywhere_eq_any_drop]
  have hnn : isNullish (Value.str s) = false := by
    simp [isNullish, hs]
  simp only [determineColumnType, List.filter, hnn, Bool.not_false, List.length_cons,
    List.length_nil, List.map, classifyValue, dedupFirst, dedupFirstAux,
    List.not_mem_nil, if_false, ← hmatch]
  by_cases hd : dateTest s = true
  · simp [hd]
  · simp [hd]

/-- Witness: a well-formed ISO date string is classified as date. -/
theorem singleton_string_classification_witness :
    determineColumnType [Value.str "2020-01-01"] = ColType.date := by
  have h := singleton_string_classification "2020-01-01" (by decide)
  exact h.trans (by decide)

/-- C4 counterexample: a boolean column with a defined mode and missing
values receives the placeholder recommendation, not the
fill-with-most-common-value recommendation the claim assigns to
categorical (string or boolean) columns, because the source tests
`column.type === 'string'` only. -/
theorem boolean_mode_recommendation_counterexample :
    (generateCleaningSuggestions (generateDataProfile boolFlagDs)).map
        (fun s => s.recommendation)
      = ["Remove rows or fill with placeholder", "Remove duplicate rows"] ∧
    (generateDataProfile boolFlagDs).columns.map (fun c => (c.type, c.mode)) =
      [(ColType.boolean, some "true")] := by
  have hcols : (generateDataProfile boolFlagDs).columns =
      [{ name := "flag", type := ColType.boolean,
         uniqueValues := [Value.bool true, Value.null], uniqueCount := 2,
         nullCount := 1, nullPercentage := some ((100 : ℚ)/3),
         min := none, max := none, mean := none, median := none,
         categories := [("true", 2)], mode := some "true" }] := by
    simp [generateDataProfile, profileFold, profileColumn, boolFlagDs, countNulls, getV,
      isNullish, determineColumnType, classifyValue, dedupFirst, dedupFirstAux, jsPct,
      categoriesOf, bumpCat, jsDisplay, modeOf, numericOf]
    try norm_num
  have hdp : (generateDataProfile boolFlagDs).duplicatePercentage = some ((100 : ℚ)/3) := by
    simp [generateDataProfile, boolFlagDs, dedupFirst, dedupFirstAux, jsPct]
    try norm_num
  constructor
  · simp [generateCleaningSuggestions, hcols, hdp, truthyPct, pctPos, missingRecommendation,
      truthyMode]
    try norm_num
  · simp [hcols]

/-- C4 amended: every missing suggestion's recommendation is determined
by its column: "Fill with mean or median value" for a number column;
"Fill with most common value: <mode>" only for a column of type string
(not boolean) with a truthy mode; "Remove rows or fill with placeholder"
otherwise. -/
theorem missing_recommendation_rule (profile : DataProfile) (s : CleaningSuggestion)
    (hmem : s ∈ generateCleaningSuggestions profile) (hiss : s.issue = Issue.missing) :
    ∃ c ∈ profile.columns, c.name = s.column ∧
      ((c.type = ColType.number ∧ s.recommendation = "Fill with mean or median value") ∨
       (c.type = ColType.string ∧ ∃ m, c.mode = some m ∧ ¬ m = "" ∧
         s.recommendation = "Fill with most common value: \"" ++ m ++ "\"") ∨
       (¬ c.type = ColType.number ∧ ¬(c.type = ColType.string ∧ truthyMode c.mode = true) ∧
         s.recommendation = "Remove rows or fill with placeholder")) := by
  simp only [generateCleaningSuggestions, List.mem_append] at hmem
  rcases hmem with (hmem | hmem) | hmem
  · rcases List.mem_filterMap.mp hmem with ⟨c, hc, hsome⟩
    by_cases hcond : (truthyPct c.nullPercentage && pctPos c.nullPercentage) = true
    · rw [if_pos hcond] at hsome
      obtain rfl : _ = s := Option.some.injEq _ _ ▸ hsome
      refine ⟨c, hc, rfl, ?_⟩
      by_cases h1 : c.type = ColType.number
      · exact Or.inl ⟨h1, by simp [missingRecommendation, h1]⟩
      · by_cases h2 : c.type = ColType.string ∧ truthyMode c.mode = true
        · obtain ⟨h2a, h2b⟩ := h2
          cases hm : c.mode with
          | none => rw [hm] at h2b; simp [truthyMode] at h2b
          | some m =>
            have hme : ¬ m = "" := by
              rw [hm] at h2b
              simpa [truthyMode] using h2b
            refine Or.inr (Or.inl ⟨h2a, m, rfl, hme, ?_⟩)
            simp [missingRecommendation, h1, h2a, hm, truthyMode, hme]
        · refine Or.inr (Or.inr ⟨h1, h2, ?_⟩)
          simp [missingRecommendation, h1, h2]
    · rw [if_neg hcond] at hsome
      cases hsome
  · by_cases hdup : pctPos profile.duplicatePercentage = true
    · rw [if_pos hdup] at hmem
      rcases List.mem_singleton.mp hmem with rfl
      simp at hiss
    · rw [if_neg hdup] at hmem
      simp at hmem
  · rcases List.mem_filterMap.mp hmem with ⟨c, _, hsome⟩
    rcases hmn : c.min with _ | mn <;> rw [hmn] at hsome <;>
      rcases hmx : c.max with _ | mx <;> rw [hmx] at hsome <;>
        rcases hme : c.mean with _ | me <;> rw [hme] at hsome
    all_goals simp only at hsome
    all_goals try cases hsome
    by_cases hout : (mx - mn > 0 ∧ mx > me * 3)
    · rw [if_pos hout] at hsome
      obtain rfl : _ = s := Option.some.injEq _ _ ▸ hsome
      simp at hiss
    · rw [if_neg hout] at hsome
      cases hsome

lemma intFloorQ_eq (q : ℚ) (n : ℤ) (h1 : (n : ℚ) ≤ q) (h2 : q < n + 1) :
    intFloorQ q = n := by
  have hq : intFloorQ q = ⌊q⌋ := by
    rw [intFloorQ, Rat.floor_def]
  rw [hq]
  exact Int.floor_eq_iff.mpr ⟨h1, h2⟩

lemma toFixed2_fifty : toFixed2 (50 : ℚ) = "50.00" := by
  have h : intFloorQ ((50 : ℚ) * 100 + 1 / 2) = 5000 :=
    intFloorQ_eq _ 5000 (by norm_num) (by norm_num)
  simp only [toFixed2, h]
  decide

/-- Witness: on a string column with a defined mode and one missing
value, the emitted missing suggestion carries the
fill-with-most-common-value recommendation. -/
theorem missing_recommendation_rule_witness :
    ∃ c ∈ (generateDataProfile cityDs).columns, c.name = citySug.column ∧
      ((c.type = ColType.number ∧ citySug.recommendation = "Fill with mean or median value") ∨
       (c.type = ColType.string ∧ ∃ m, c.mode = some m ∧ ¬ m = "" ∧
         citySug.recommendation = "Fill with most common value: \"" ++ m ++ "\"") ∨
       (¬ c.type = ColType.number ∧ ¬(c.type = ColType.string ∧ truthyMode c.mode = true) ∧
         citySug.recommendation = "Remove rows or fill with placeholder")) := by
  have hcols : (generateDataProfile cityDs).columns =
      [{ name := "city", type := ColType.string,
         uniqueValues := [Value.str "NY", Value.null], uniqueCount := 2,
         nullCount := 1, nullPercentage := some (50 : ℚ),
         min := none, max := none, mean := none, median := none,
         categories := [("NY", 1)], mode := some "NY" }] := by
    simp [generateDataProfile, profileFold, profileColumn, cityDs, countNulls, getV,
      isNullish, determineColumnType, classifyValue, dedupFirst, dedupFirstAux, jsPct,
      categoriesOf, bumpCat, jsDisplay, modeOf, numericOf, dateTest, pat442, pat224slash,
      pat224dash, anywhere, takeIsDigits]
    try norm_num
  have hdp : (generateDataProfile cityDs).duplicatePercentage = some (0 : ℚ) := by
    simp [generateDataProfile, cityDs, dedupFirst, dedupFirstAux, jsPct]
    try norm_num
  have hsugg : generateCleaningSuggestions (generateDataProfile cityDs) = [citySug] := by
    simp [generateCleaningSuggestions, hcols, hdp, truthyPct, pctPos,
      missingRecommendation, truthyMode, missingDescription, toFixed2_fifty, citySug]
    try norm_num
    try decide
  refine missing_recommendation_rule (generateDataProfile cityDs) citySug ?_ rfl
  rw [hsugg]
  exact List.mem_singleton.mpr rfl

/-- Cell-level description of the outlier cap on one row. -/
lemma getV_capRow (col : String) (cap : ℚ) (r : Row) (f : String) :
    getV (capRow col cap r) f =
      (match getV r f with
       | Value.num v => if f = col ∧ v > cap then Value.num cap else Value.num v
       | w => w) := by
  unfold capRow
  by_cases hf : f = col
  · subst hf
    cases hv : getV r f with
    | num v =>
      by_cases hgt : v > cap
      · simp [hgt, getV_setV_self]
      · simp [hv, hgt]
    | bool b => simp [hv]
    | str s => simp [hv]
    | null => simp [hv]
  · cases hv : getV r col with
    | num v =>
      by_cases hgt : v > cap
      · simp only [hgt, if_true, getV_setV_ne r col f (Value.num cap) hf]
        cases hw : getV r f <;> simp [hf]
      · simp only [hgt, if_false]
        cases hw : getV r f <;> simp [hf]
    | bool b => cases hw : getV r f <;> simp [hf]
    | str s => cases hw : getV r f <;> simp [hf]
    | null => cases hw : getV r f <;> simp [hf]

/-- C6: applying an outlier suggestion with autoFix for a numeric profile
column with median `m` caps exactly the numeric cells strictly above
`m × 3` down to `m × 3` and leaves every other cell untouched; in
particular, on the Scenario D column `[10, 10, 10, 1000]` the `1000` cell
becomes `30`. -/
theorem outlier_capping :
    (∀ (ds : DatasetType) (profile : DataProfile) (s : CleaningSuggestion)
        (c : DataColumn) (m : ℚ),
      s.issue = Issue.outlier → s.autoFix = true →
      profile.columns.find? (fun col => col.name = s.column) = some c →
      c.type = ColType.number → c.median = some m →
      ((cleanDataset ds profile [s]).data.length = ds.data.length ∧
       ∀ (i : Nat) (f : String),
         getV ((cleanDataset ds profile [s]).data.getD i []) f =
           (match getV (ds.data.getD i []) f with
            | Value.num v => if f = s.column ∧ v > m * 3 then Value.num (m * 3) else Value.num v
            | w => w)))
    ∧ (cleanDataset outlierDs (generateDataProfile outlierDs) [outlierSug]).data =
        [[("x", Value.num 10)], [("x", Value.num 10)], [("x", Value.num 10)],
         [("x", Value.num 30)]] := by
  constructor
  · intro ds profile s c m hiss hfix hfind htype hmed
    have hdata : (cleanDataset ds profile [s]).data = ds.data.map (capRow s.column (m * 3)) := by
      simp [cleanDataset, applySuggestion, hiss, hfix, hfind, htype, hmed]
    refine ⟨by simp [hdata], ?_⟩
    intro i f
    rw [hdata, getD_map_of_fix (capRow s.column (m * 3)) rfl]
    exact getV_capRow s.column (m * 3) _ f
  · have hprof : (generateDataProfile outlierDs).columns =
        [{ name := "x", type := ColType.number,
           uniqueValues := [Value.num 10, Value.num 1000], uniqueCount := 2,
           nullCount := 0, nullPercentage := some (0 : ℚ),
           min := some 10, max := some 1000, mean := some ((515 : ℚ)/2),
           median := some 10, categories := [], mode := none }] := by
      simp [generateDataProfile, profileFold, profileColumn, outlierDs, countNulls, getV,
        isNullish, determineColumnType, classifyValue, dedupFirst, dedupFirstAux, jsPct,
        categoriesOf, numericOf, medianOf, sortQ, insertSorted, listMin, listMax]
      try norm_num
    have hfind : (generateDataProfile outlierDs).columns.find?
        (fun col => col.name = "x") = some
        { name := "x", type := ColType.number,
          uniqueValues := [Value.num 10, Value.num 1000], uniqueCount := 2,
          nullCount := 0, nullPercentage := some (0 : ℚ),
          min := some 10, max := some 1000, mean := some ((515 : ℚ)/2),
          median := some 10, categories := [], mode := none } := by
      rw [hprof]
      simp [List.find?]
    have hdata : (cleanDataset outlierDs (generateDataProfile outlierDs) [outlierSug]).data
        = outlierDs.data.map (capRow "x" ((10 : ℚ) * 3)) := by
      simp [cleanDataset, applySuggestion, outlierSug, hfind]
    rw [hdata]
    simp [outlierDs, capRow, getV, setV, List.find?]
    try norm_num

/-- Witness: on the Scenario D dataset the cell holding `1000` is capped
to `30` by the outlier suggestion. -/
theorem outlier_capping_witness :
    getV ((cleanDataset outlierDs (generateDataProfile outlierDs) [outlierSug]).data.getD 3 [])
        "x" = Value.num 30 := by
  have hprof : (generateDataProfile outlierDs).columns =
      [{ name := "x", type := ColType.number,
         uniqueValues := [Value.num 10, Value.num 1000], uniqueCount := 2,
         nullCount := 0, nullPercentage := some (0 : ℚ),
         min := some 10, max := some 1000, mean := some ((515 : ℚ)/2),
         median := some 10, categories := [], mode := none }] := by
    simp [generateDataProfile, profileFold, profileColumn, outlierDs, countNulls, getV,
      isNullish, determineColumnType, classifyValue, dedupFirst, dedupFirstAux, jsPct,
      categoriesOf, numericOf, medianOf, sortQ, insertSorted, listMin, listMax]
    try norm_num
  have hfind : (generateDataProfile outlierDs).columns.find?
      (fun col => col.name = outlierSug.column) = some
      { name := "x", type := ColType.number,
        uniqueValues := [Value.num 10, Value.num 1000], uniqueCount := 2,
        nullCount := 0, nullPercentage := some (0 : ℚ),
        min := some 10, max := some 1000, mean := some ((515 : ℚ)/2),
        median := some 10, categories := [], mode := none } := by
    rw [hprof]
    simp [outlierSug, List.find?]
  have h := (outlier_capping).1 outlierDs (generateDataProfile outlierDs) outlierSug
      { name := "x", type := ColType.number,
        uniqueValues := [Value.num 10, Value.num 1000], uniqueCount := 2,
        nullCount := 0, nullPercentage := some (0 : ℚ),
        min := some 10, max := some 1000, mean := some ((515 : ℚ)/2),
        median := some 10, categories := [], mode := none } 10
      rfl rfl hfind rfl rfl
  rw [h.2 3 "x"]
  simp [outlierDs, getV, List.find?, outlierSug]
  try norm_num

/-- C7: applying the duplicate-removal suggestion twice yields the same
Dataset as applying it once; the single application keeps one row per
canonical key, in first-occurrence order (a duplicate-free subsequence of
the input containing every input row). -/
theorem duplicate_removal_idempotent (ds : DatasetType) (p1 p2 : DataProfile)
    (s : CleaningSuggestion) (hiss : s.issue = Issue.duplicate) (hfix : s.autoFix = true) :
    cleanDataset (cleanDataset ds p1 [s]) p2 [s] = cleanDataset ds p1 [s] ∧
    ((cleanDataset ds p1 [s]).data.Sublist ds.data ∧
     (cleanDataset ds p1 [s]).data.Nodup ∧
     ∀ r ∈ ds.data, r ∈ (cleanDataset ds p1 [s]).data) := by
  have hstep : ∀ (p : DataProfile) (d : List Row), applySuggestion p d s = removeDuplicates d := by
    intro p d
    simp [applySuggestion, hiss, hfix]
  have hd1 : (cleanDataset ds p1 [s]).data = removeDuplicates ds.data := by
    simp [cleanDataset, hstep]
  refine ⟨?_, ?_, ?_, ?_⟩
  · show ({ cleanDataset ds p1 [s] with
      data := [s].foldl (applySuggestion p2) (cleanDataset ds p1 [s]).data } : DatasetType) = _
    simp only [List.foldl_cons, List.foldl_nil, hstep, hd1]
    have : removeDuplicates (removeDuplicates ds.data) = removeDuplicates ds.data :=
      dedupFirst_idem ds.data
    simp [cleanDataset, hstep, hd1, this]
  · rw [hd1]
    exact dedupFirstAux_sublist [] ds.data
  · rw [hd1]
    exact nodup_dedupFirstAux [] ds.data
  · intro r hr
    rw [hd1]
    exact mem_dedupFirstAux_of_mem [] ds.data r hr (by simp)

/-- Witness: deduplicating the Scenario A dataset is idempotent and
yields duplicate-free data. -/
theorem duplicate_removal_idempotent_witness :
    cleanDataset (cleanDataset scenarioA (generateDataProfile scenarioA) [dupSug])
        (generateDataProfile scenarioA) [dupSug]
      = cleanDataset scenarioA (generateDataProfile scenarioA) [dupSug] ∧
    (cleanDataset scenarioA (generateDataProfile scenarioA) [dupSug]).data.Nodup := by
  have h := duplicate_removal_idempotent scenarioA (generateDataProfile scenarioA)
    (generateDataProfile scenarioA) dupSug rfl rfl
  exact ⟨h.1, h.2.2.1⟩

/-- C8: whenever the lower-cased question contains "how many rows" or
"how many records", `generateAnswer` reports the row count. -/
theorem rowcount_question_reports_length (q : String) (ds : DatasetType) (n : Nat)
    (hn : n = ds.data.length)
    (h : includes (lowerStr q) "how many rows" = true ∨
         includes (lowerStr q) "how many records" = true) :
    generateAnswer q ds = s!"There are {n} rows in this dataset." := by
  subst hn
  rcases h with h | h <;> simp [generateAnswer, h]

/-- Witness: Scenario C — the row-count question on the Scenario A
dataset yields exactly the expected sentence. -/
theorem rowcount_question_reports_length_witness :
    generateAnswer "How many rows are in this dataset?" scenarioA
      = "There are 3 rows in this dataset." := by
  have h := rowcount_question_reports_length "How many rows are in this dataset?" scenarioA 3
    (by decide) (Or.inl (by decide))
  exact h.trans (by decide)

/-- C10: when no row/column intent matches, the question names a column
and contains a maximum keyword, but the first non-null value of that
column is not a number, `generateAnswer` falls through past the maximum
branch; the minimum branch likewise falls through to the later sub-intent
checks under the same first-value condition. -/
theorem max_branch_requires_first_numeric (q : String) (ds : DatasetType) (col : String)
    (h1 : (includes (lowerStr q) "how many rows"
            || includes (lowerStr q) "how many records") = false)
    (h2 : (includes (lowerStr q) "how many columns"
            || includes (lowerStr q) "how many fields") = false)
    (h3 : (includes (lowerStr q) "what columns"
            || includes (lowerStr q) "what fields") = false)
    (h4 : ds.fields.find? (fun f => includes (lowerStr q) (lowerStr f)) = some col)
    (h5 : firstIsNumber (colValues ds col) = false) :
    (maxKw (lowerStr q) = true → generateAnswer q ds = afterMax (lowerStr q) ds col) ∧
    afterMax (lowerStr q) ds col = afterMin (lowerStr q) ds col := by
  constructor
  · intro _
    simp [generateAnswer, h1, h2, h3, h4, answerColumn, h5]
  · simp [afterMax, h5]

/-- Witness: "What is the max score?" on a score column whose first value
is the string "NA" (but which holds the number 10 later) bypasses the
maximum and minimum branches. -/
theorem max_branch_requires_first_numeric_witness :
    generateAnswer "What is the max score?" scoreDs
        = afterMax (lowerStr "What is the max score?") scoreDs "score" ∧
      afterMax (lowerStr "What is the max score?") scoreDs "score"
        = afterMin (lowerStr "What is the max score?") scoreDs "score" := by
  have h := max_branch_requires_first_numeric "What is the max score?" scoreDs "score"
    (by decide) (by decide) (by decide) (by decide) (by decide)
  exact ⟨h.1 (by decide), h.2⟩
